import Mathlib

/-!
Shallow embedding of the tool-response normalization and aggregation layer of
the investment-research agent (src/investment_agent/agent.py).

Modelling conventions:
* Python dictionaries are association lists in insertion order
  (`Dict := List (String × Value)`), with a JSON-like `Value` type.
* Upstream network calls are parameters: each adapter receives the outcome of
  its one upstream fetch as an `Except String β` value (`.error e` models the
  upstream raising an exception whose text is `e`; for the row-per-statement
  endpoints `.ok none` models an empty DataFrame, `.ok (some row)` the most
  recent row). Aggregators receive a `World` bundling the five fetch outcomes
  for a ticker, so that two calls for the same ticker see the same responses.
* Numeric line items from the provider are `Option ℚ`: `none` models an absent
  field, which the adapters surface as the string sentinel "N/A" (exactly as
  `row.get(key, "N/A")` does); `float` applied to that sentinel raises, which
  `pyFloatV` models by returning `.error`.
* Python `round(x, 2)` is modelled as round-half-to-even at two decimals on ℚ,
  `int(x)` as truncation toward zero, and division by zero as a raised
  exception where the source can reach it.
-/

inductive Value where
  | s : String → Value
  | q : ℚ → Value
  | z : Int → Value
  | d : List (String × Value) → Value
  | l : List Value → Value

/-- A Python dict, as an association list in insertion order. -/
def Dict : Type := List (String × Value)

/-- `d.get(k, default)` on a Python dict. -/
def dget (dc : Dict) (k : String) (dflt : Value) : Value :=
  (List.lookup k dc).getD dflt

/-- `d.get(k1, dc).get(k2, "N/A")`: nested read used by the checklist. -/
def subget (dc : Dict) (k1 k2 : String) : Value :=
  match List.lookup k1 dc with
  | some (.d inner) => (List.lookup k2 inner).getD (.s "N/A")
  | _ => .s "N/A"

/-- The status entry of an envelope. -/
def statusOf (dc : Dict) : Option Value := List.lookup "status" dc

/-- `envelope.get('status') == 'error'`, the gate used by the calculators. -/
def statusIsError (dc : Dict) : Bool :=
  match List.lookup "status" dc with
  | some (.s st) => st == "error"
  | _ => false

/-- The error envelope every `except` branch returns. -/
def errDict (msg : String) : Dict :=
  [("status", .s "error"), ("message", .s msg)]

/-- Integer floor of a rational (computable). -/
def ratFloor (x : ℚ) : Int := Rat.floor x

/-- Round to the nearest integer, ties to even — the behaviour of Python 3
round on the values this program produces. -/
def roundHalfEven (x : ℚ) : Int :=
  let n := ratFloor x
  let r := x - (n : ℚ)
  if r < 1/2 then n
  else if 1/2 < r then n + 1
  else if n % 2 = 0 then n else n + 1

/-- Python `round(x, 2)`. -/
def round2 (x : ℚ) : ℚ := (roundHalfEven (x * 100) : ℚ) / 100

/-- Python `int(x)`: truncation toward zero. -/
def pyTrunc (x : ℚ) : Int := if 0 ≤ x then ratFloor x else -ratFloor (-x)

/-- Python `float(v)` on the values reachable here: numbers convert, the
"N/A" sentinel (or any other string stored by these adapters) raises. -/
def pyFloatV : Value → Except String ℚ
  | .q x => .ok x
  | .z n => .ok (n : ℚ)
  | .s st => .error ("could not convert string to float: " ++ st)
  | _ => .error "float() argument is not a string or a number"

/-- An absent numeric line item surfaces as the "N/A" sentinel, a present one
as its number: the effect of `row.get(key, "N/A")` on provider data. -/
def fval : Option ℚ → Value
  | none => .s "N/A"
  | some x => .q x

/-- Same for string-valued fields. -/
def sval (o : Option String) : Value := .s (o.getD "N/A")

/-- Python str.upper() on the ASCII ticker strings this program handles. -/
def pyUpper (s : String) : String := String.mk (s.data.map Char.toUpper)

/-- One row of the daily price series (columns used by the code). -/
structure PriceRow where
  close : ℚ
  high : ℚ
  low : ℚ
  volume : ℚ

/-- The single company-overview row; every field optional. -/
structure FundRow where
  name : Option String
  sector : Option String
  industry : Option String
  marketCapitalization : Option String
  peRatio : Option String
  forwardPE : Option String
  pegRatio : Option String
  priceToBookRatio : Option String
  dividendYield : Option String
  beta : Option String
  profitMargin : Option String
  quarterlyRevenueGrowthYOY : Option String
  eps : Option String
  analystTargetPrice : Option String
  week52High : Option String
  week52Low : Option String

/-- Most recent annual income-statement row. -/
structure IncomeRow where
  fiscalDateEnding : Option String
  totalRevenue : Option ℚ
  grossProfit : Option ℚ
  operatingIncome : Option ℚ
  netIncome : Option ℚ
  ebitda : Option ℚ
  eps : Option ℚ
  researchAndDevelopment : Option ℚ

/-- Most recent annual balance-sheet row. -/
structure BalanceRow where
  fiscalDateEnding : Option String
  totalAssets : Option ℚ
  totalLiabilities : Option ℚ
  totalShareholderEquity : Option ℚ
  totalCurrentAssets : Option ℚ
  totalCurrentLiabilities : Option ℚ
  cashAndCashEquivalentsAtCarryingValue : Option ℚ
  longTermDebt : Option ℚ
  shortTermDebt : Option ℚ

/-- Most recent annual cash-flow row. -/
structure CashRow where
  fiscalDateEnding : Option String
  operatingCashflow : Option ℚ
  capitalExpenditures : Option ℚ
  dividendPayout : Option ℚ
  changeInCashAndCashEquivalents : Option ℚ

/-- One raw search hit: the fields of `result.document.derived_struct_data`
the code reads. `snippets` is a list of dicts each optionally carrying a
snippet string. -/
structure RawHit where
  title : Option String
  snippets : Option (List (Option String))
  link : Option String

/-- The upstream responses for one ticker, one per data category. -/
structure World where
  price : Except String (List PriceRow)
  overview : Except String (Option FundRow)
  income : Except String (Option IncomeRow)
  balance : Except String (Option BalanceRow)
  cashflow : Except String (Option CashRow)

/-- Parse one hit exactly as the loop body does: missing title becomes
"Untitled"; the snippet is the first element of a truthy snippets list (or
empty string); missing link becomes the empty string. -/
def parseHit (h : RawHit) : Value :=
  let sn : String :=
    match h.snippets with
    | some (d0 :: _) => d0.getD ""
    | _ => ""
  .d [("title", .s (h.title.getD "Untitled")),
      ("snippet", .s sn),
      ("link", .s (h.link.getD ""))]

/-- search_investment_research. `available` is the process-wide
vertex_search_available flag; `backend` the outcome of the attempted search
interaction. Returns the envelope together with the number of backend
interactions attempted (0 when gated off, 1 otherwise). -/
def search_investment_research (query : String) (available : Bool)
    (backend : Except String (List RawHit)) : Dict × Nat :=
  if available then
    match backend with
    | .error e =>
        (errDict ("Error searching investment research: " ++ e), 1)
    | .ok hits =>
        let results := hits.map parseHit
        if results.isEmpty then
          ([("status", .s "success"), ("query", .s query),
            ("message", .s "No results found for this query."),
            ("results", .l [])], 1)
        else
          ([("status", .s "success"), ("query", .s query),
            ("results_count", .z results.length),
            ("results", .l results)], 1)
  else
    ([("status", .s "info"),
      ("message", .s "Vertex AI Search is not available. The agent will continue without research context grounding. This feature requires Google Cloud authentication which is configured for local development only.")], 0)

/-- The close of the last row of the fetched window (`iloc[-1]`). -/
def oldestClose (r0 r1 : PriceRow) (rest : List PriceRow) : ℚ :=
  ((r0 :: r1 :: rest).getLastD r0).close

/-- get_stock_price. `fetch` is the outcome of `ts.get_daily`, rows ordered
most recent first. A one-row frame makes `iloc[1]` raise and a zero divisor
makes the percent computation raise; both land in the except branch. -/
def get_stock_price (ticker : String) (fetch : Except String (List PriceRow)) : Dict :=
  match fetch with
  | .error e =>
      errDict ("Error fetching price data for " ++ ticker ++ ": " ++ e ++
        ". If using demo API key, note that it has limited tickers.")
  | .ok rows =>
    match rows with
    | [] =>
        errDict ("No price data found for " ++ ticker ++
          ". Please verify the ticker symbol.")
    | [_] =>
        errDict ("Error fetching price data for " ++ ticker ++
          ": single positional indexer is out-of-bounds. If using demo API key, note that it has limited tickers.")
    | r0 :: r1 :: rest =>
      let latest := r0.close
      let previous := r1.close
      let oldest := oldestClose r0 r1 rest
      if previous = 0 then
        errDict ("Error fetching price data for " ++ ticker ++
          ": float division by zero. If using demo API key, note that it has limited tickers.")
      else if oldest = 0 then
        errDict ("Error fetching price data for " ++ ticker ++
          ": float division by zero. If using demo API key, note that it has limited tickers.")
      else
        [("status", .s "success"),
         ("ticker", .s (pyUpper ticker)),
         ("current_price", .q (round2 latest)),
         ("change_1day", .q (round2 (latest - previous))),
         ("change_1day_percent", .q (round2 ((latest - previous) / previous * 100))),
         ("change_1month", .q (round2 (latest - oldest))),
         ("change_1month_percent", .q (round2 ((latest - oldest) / oldest * 100))),
         ("high_recent", .q (round2 ((rest.map PriceRow.high).foldl max (max r0.high r1.high)))),
         ("low_recent", .q (round2 ((rest.map PriceRow.low).foldl min (min r0.low r1.low)))),
         ("average_volume", .z (pyTrunc (((r0 :: r1 :: rest).map PriceRow.volume).sum / ((r0 :: r1 :: rest).length : ℚ))))]

/-- get_stock_fundamentals. `.ok none` models an empty overview frame. -/
def get_stock_fundamentals (ticker : String)
    (fetch : Except String (Option FundRow)) : Dict :=
  match fetch with
  | .error e =>
      errDict ("Error fetching fundamentals for " ++ ticker ++ ": " ++ e ++
        ". If using demo API key, upgrade at alphavantage.co")
  | .ok none =>
      errDict ("No fundamental data found for " ++ ticker ++ ".")
  | .ok (some row) =>
      [("status", .s "success"),
       ("ticker", .s (pyUpper ticker)),
       ("company_name", sval row.name),
       ("sector", sval row.sector),
       ("industry", sval row.industry),
       ("market_cap", sval row.marketCapitalization),
       ("pe_ratio", sval row.peRatio),
       ("forward_pe", sval row.forwardPE),
       ("peg_ratio", sval row.pegRatio),
       ("price_to_book", sval row.priceToBookRatio),
       ("dividend_yield", sval row.dividendYield),
       ("beta", sval row.beta),
       ("profit_margin", sval row.profitMargin),
       ("revenue_growth", sval row.quarterlyRevenueGrowthYOY),
       ("eps", sval row.eps),
       ("analyst_target", sval row.analystTargetPrice),
       ("52_week_high", sval row.week52High),
       ("52_week_low", sval row.week52Low)]

/-- get_income_statement. -/
def get_income_statement (ticker : String)
    (fetch : Except String (Option IncomeRow)) : Dict :=
  match fetch with
  | .error e =>
      errDict ("Error fetching income statement for " ++ ticker ++ ": " ++ e)
  | .ok none =>
      errDict ("No income statement data found for " ++ ticker ++ ".")
  | .ok (some row) =>
      [("status", .s "success"),
       ("ticker", .s (pyUpper ticker)),
       ("fiscal_date", sval row.fiscalDateEnding),
       ("total_revenue", fval row.totalRevenue),
       ("gross_profit", fval row.grossProfit),
       ("operating_income", fval row.operatingIncome),
       ("net_income", fval row.netIncome),
       ("ebitda", fval row.ebitda),
       ("eps", fval row.eps),
       ("research_development", fval row.researchAndDevelopment)]

/-- get_balance_sheet. -/
def get_balance_sheet (ticker : String)
    (fetch : Except String (Option BalanceRow)) : Dict :=
  match fetch with
  | .error e =>
      errDict ("Error fetching balance sheet for " ++ ticker ++ ": " ++ e)
  | .ok none =>
      errDict ("No balance sheet data found for " ++ ticker ++ ".")
  | .ok (some row) =>
      [("status", .s "success"),
       ("ticker", .s (pyUpper ticker)),
       ("fiscal_date", sval row.fiscalDateEnding),
       ("total_assets", fval row.totalAssets),
       ("total_liabilities", fval row.totalLiabilities),
       ("total_shareholder_equity", fval row.totalShareholderEquity),
       ("current_assets", fval row.totalCurrentAssets),
       ("current_liabilities", fval row.totalCurrentLiabilities),
       ("cash_and_equivalents", fval row.cashAndCashEquivalentsAtCarryingValue),
       ("long_term_debt", fval row.longTermDebt),
       ("short_term_debt", fval row.shortTermDebt)]

/-- get_cash_flow. Note: free_cash_flow is populated from the
operatingCashflow line item, not OCF minus capex. -/
def get_cash_flow (ticker : String)
    (fetch : Except String (Option CashRow)) : Dict :=
  match fetch with
  | .error e =>
      errDict ("Error fetching cash flow for " ++ ticker ++ ": " ++ e)
  | .ok none =>
      errDict ("No cash flow data found for " ++ ticker ++ ".")
  | .ok (some row) =>
      [("status", .s "success"),
       ("ticker", .s (pyUpper ticker)),
       ("fiscal_date", sval row.fiscalDateEnding),
       ("operating_cash_flow", fval row.operatingCashflow),
       ("capital_expenditures", fval row.capitalExpenditures),
       ("free_cash_flow", fval row.operatingCashflow),
       ("dividends_paid", fval row.dividendPayout),
       ("change_in_cash", fval row.changeInCashAndCashEquivalents)]

/-- The whole-group fallback written by each ratio except branch. -/
def noteGroup : List (String × Value) :=
  [("note", .s "Insufficient data for calculation")]

/-- The liquidity-ratio try block of calculate_financial_ratios: float each
operand in source order; any conversion failure collapses the group to the
note; a non-positive current-liabilities figure leaves the group empty. -/
def liqGroup (balance : Dict) : List (String × Value) :=
  match pyFloatV (dget balance "current_assets" (.z 0)) with
  | .error _ => noteGroup
  | .ok ca =>
    match pyFloatV (dget balance "current_liabilities" (.z 1)) with
    | .error _ => noteGroup
    | .ok cl =>
      match pyFloatV (dget balance "cash_and_equivalents" (.z 0)) with
      | .error _ => noteGroup
      | .ok cash =>
        if cl > 0 then
          [("current_ratio", .q (round2 (ca / cl))),
           ("quick_ratio", .q (round2 ((ca - cash) / cl))),
           ("cash_ratio", .q (round2 (cash / cl)))]
        else []

/-- The profitability-ratio try block of calculate_financial_ratios. -/
def profGroup (income : Dict) : List (String × Value) :=
  match pyFloatV (dget income "total_revenue" (.z 1)) with
  | .error _ => noteGroup
  | .ok revenue =>
    match pyFloatV (dget income "net_income" (.z 0)) with
    | .error _ => noteGroup
    | .ok netInc =>
      match pyFloatV (dget income "gross_profit" (.z 0)) with
      | .error _ => noteGroup
      | .ok grossProf =>
        match pyFloatV (dget income "operating_income" (.z 0)) with
        | .error _ => noteGroup
        | .ok opInc =>
          if revenue > 0 then
            [("net_profit_margin", .q (round2 (netInc / revenue * 100))),
             ("gross_profit_margin", .q (round2 (grossProf / revenue * 100))),
             ("operating_margin", .q (round2 (opInc / revenue * 100)))]
          else []

/-- The leverage-ratio try block of calculate_financial_ratios. The
long-term-debt operand is floated (and can therefore blank the group) even
though no ratio uses it. -/
def levGroup (balance : Dict) : List (String × Value) :=
  match pyFloatV (dget balance "total_assets" (.z 1)) with
  | .error _ => noteGroup
  | .ok ta =>
    match pyFloatV (dget balance "total_liabilities" (.z 0)) with
    | .error _ => noteGroup
    | .ok tl =>
      match pyFloatV (dget balance "total_shareholder_equity" (.z 1)) with
      | .error _ => noteGroup
      | .ok eqty =>
        match pyFloatV (dget balance "long_term_debt" (.z 0)) with
        | .error _ => noteGroup
        | .ok _ =>
          (if ta > 0 then [("debt_to_assets", .q (round2 (tl / ta)))] else []) ++
          (if eqty > 0 then
            [("debt_to_equity", .q (round2 (tl / eqty))),
             ("equity_multiplier", .q (round2 (ta / eqty)))]
           else [])

/-- calculate_financial_ratios: refetches balance sheet and income statement,
aborts if either envelope is an error, else assembles the three groups. -/
def calculate_financial_ratios (ticker : String)
    (balanceFetch : Except String (Option BalanceRow))
    (incomeFetch : Except String (Option IncomeRow)) : Dict :=
  let balance := get_balance_sheet ticker balanceFetch
  let income := get_income_statement ticker incomeFetch
  if statusIsError balance || statusIsError income then
    errDict "Unable to calculate ratios - financial statement data unavailable"
  else
    [("status", .s "success"),
     ("ticker", .s (pyUpper ticker)),
     ("liquidity_ratios", .d (liqGroup balance)),
     ("profitability_ratios", .d (profGroup income)),
     ("leverage_ratios", .d (levGroup balance))]

/-- calculate_valuation_metrics: refetches fundamentals and price, aborts if
either envelope is an error, else juxtaposes already-fetched fields. -/
def calculate_valuation_metrics (ticker : String)
    (priceFetch : Except String (List PriceRow))
    (overviewFetch : Except String (Option FundRow)) : Dict :=
  let fundamentals := get_stock_fundamentals ticker overviewFetch
  let price := get_stock_price ticker priceFetch
  if statusIsError fundamentals || statusIsError price then
    errDict "Unable to calculate metrics - fundamental or price data unavailable"
  else
    [("status", .s "success"),
     ("ticker", .s (pyUpper ticker)),
     ("current_price", dget price "current_price" (.z 0)),
     ("pe_ratio", dget fundamentals "pe_ratio" (.s "N/A")),
     ("market_cap", dget fundamentals "market_cap" (.s "N/A")),
     ("earnings_per_share", dget fundamentals "eps" (.s "N/A")),
     ("price_to_book", dget fundamentals "price_to_book" (.s "N/A")),
     ("peg_ratio", dget fundamentals "peg_ratio" (.s "N/A")),
     ("dividend_yield", dget fundamentals "dividend_yield" (.s "N/A")),
     ("analyst_target", dget fundamentals "analyst_target" (.s "N/A"))]

/-- analyze_growth_trends: aborts only when the fundamentals envelope is an
error; an errored price envelope just yields "N/A" momentum fields. -/
def analyze_growth_trends (ticker : String)
    (priceFetch : Except String (List PriceRow))
    (overviewFetch : Except String (Option FundRow)) : Dict :=
  let fundamentals := get_stock_fundamentals ticker overviewFetch
  let price := get_stock_price ticker priceFetch
  if statusIsError fundamentals then
    errDict "Unable to analyze growth - fundamental data unavailable"
  else
    [("status", .s "success"),
     ("ticker", .s (pyUpper ticker)),
     ("revenue_growth", dget fundamentals "revenue_growth" (.s "N/A")),
     ("price_momentum", .d
       [("1_day_change", dget price "change_1day_percent" (.s "N/A")),
        ("1_month_change", dget price "change_1month_percent" (.s "N/A"))]),
     ("valuation_metrics", .d
       [("peg_ratio", dget fundamentals "peg_ratio" (.s "N/A")),
        ("forward_pe", dget fundamentals "forward_pe" (.s "N/A"))])]

/-- compare_stocks: fetches the two instruments independently and keys the
comparison by the uppercased inputs; top-level status is unconditionally
success. -/
def compare_stocks (ticker1 ticker2 : String) (w1 w2 : World) : Dict :=
  let stock1Price := get_stock_price ticker1 w1.price
  let stock1Fundamentals := get_stock_fundamentals ticker1 w1.overview
  let stock2Price := get_stock_price ticker2 w2.price
  let stock2Fundamentals := get_stock_fundamentals ticker2 w2.overview
  [("status", .s "success"),
   ("comparison", .d
     [(pyUpper ticker1, .d
        [("price_data", .d stock1Price),
         ("fundamentals", .d stock1Fundamentals)]),
      (pyUpper ticker2, .d
        [("price_data", .d stock2Price),
         ("fundamentals", .d stock2Fundamentals)])])]

/-- get_stock_info: embeds the two envelopes under a success top level. -/
def get_stock_info (ticker : String) (w : World) : Dict :=
  [("status", .s "success"),
   ("ticker", .s (pyUpper ticker)),
   ("price_info", .d (get_stock_price ticker w.price)),
   ("company_info", .d (get_stock_fundamentals ticker w.overview))]

/-- generate_investment_report: gathers every section unconditionally and
embeds each envelope as-is; the top level is always a success envelope. -/
def generate_investment_report (ticker : String) (w : World) : Dict :=
  let price := get_stock_price ticker w.price
  let fundamentals := get_stock_fundamentals ticker w.overview
  let income := get_income_statement ticker w.income
  let balance := get_balance_sheet ticker w.balance
  let cashFlow := get_cash_flow ticker w.cashflow
  let valuation := calculate_valuation_metrics ticker w.price w.overview
  [("status", .s "success"),
   ("ticker", .s (pyUpper ticker)),
   ("report_date", .s "Current"),
   ("sections", .d
     [("price_performance", .d price),
      ("company_overview", .d fundamentals),
      ("income_statement", .d income),
      ("balance_sheet", .d balance),
      ("cash_flow", .d cashFlow),
      ("valuation_analysis", .d valuation)]),
   ("report_type", .s "Comprehensive Investment Research Report"),
   ("note", .s "This automated report provides real-time financial data and analysis.")]

/-- investment_checklist_screen: aborts only when the fundamentals envelope is
an error; other sections are flattened field-by-field (errored sections just
contribute "N/A" values). The balance, income and valuation results are
fetched but never read, exactly as in the source. -/
def investment_checklist_screen (ticker : String) (w : World) : Dict :=
  let fundamentals := get_stock_fundamentals ticker w.overview
  let _balance := get_balance_sheet ticker w.balance
  let _income := get_income_statement ticker w.income
  let cashFlow := get_cash_flow ticker w.cashflow
  let ratios := calculate_financial_ratios ticker w.balance w.income
  let _valuation := calculate_valuation_metrics ticker w.price w.overview
  if statusIsError fundamentals then
    errDict "Unable to complete checklist - fundamental data unavailable"
  else
    [("status", .s "success"),
     ("ticker", .s (pyUpper ticker)),
     ("company_name", dget fundamentals "company_name" (.s "N/A")),
     ("business_quality", .d
       [("net_profit_margin", subget ratios "profitability_ratios" "net_profit_margin"),
        ("gross_profit_margin", subget ratios "profitability_ratios" "gross_profit_margin"),
        ("operating_margin", subget ratios "profitability_ratios" "operating_margin"),
        ("market_cap", dget fundamentals "market_cap" (.s "N/A")),
        ("sector", dget fundamentals "sector" (.s "N/A")),
        ("industry", dget fundamentals "industry" (.s "N/A"))]),
     ("financial_health", .d
       [("debt_to_equity", subget ratios "leverage_ratios" "debt_to_equity"),
        ("debt_to_assets", subget ratios "leverage_ratios" "debt_to_assets"),
        ("equity_multiplier", subget ratios "leverage_ratios" "equity_multiplier"),
        ("current_ratio", subget ratios "liquidity_ratios" "current_ratio"),
        ("quick_ratio", subget ratios "liquidity_ratios" "quick_ratio"),
        ("cash_ratio", subget ratios "liquidity_ratios" "cash_ratio"),
        ("operating_cash_flow", dget cashFlow "operating_cash_flow" (.s "N/A")),
        ("free_cash_flow", dget cashFlow "free_cash_flow" (.s "N/A")),
        ("capital_expenditures", dget cashFlow "capital_expenditures" (.s "N/A"))]),
     ("valuation_metrics", .d
       [("peg_ratio", dget fundamentals "peg_ratio" (.s "N/A")),
        ("pe_ratio", dget fundamentals "pe_ratio" (.s "N/A")),
        ("forward_pe", dget fundamentals "forward_pe" (.s "N/A")),
        ("price_to_book", dget fundamentals "price_to_book" (.s "N/A")),
        ("analyst_target", dget fundamentals "analyst_target" (.s "N/A")),
        ("52_week_high", dget fundamentals "52_week_high" (.s "N/A")),
        ("52_week_low", dget fundamentals "52_week_low" (.s "N/A"))]),
     ("risk_indicators", .d
       [("beta", dget fundamentals "beta" (.s "N/A")),
        ("dividend_yield", dget fundamentals "dividend_yield" (.s "N/A")),
        ("revenue_growth_yoy", dget fundamentals "revenue_growth" (.s "N/A")),
        ("earnings_per_share", dget fundamentals "eps" (.s "N/A"))])]

/-- An envelope has one of the three documented statuses. -/
def statusOk (dc : Dict) : Prop :=
  statusOf dc = some (.s "success") ∨ statusOf dc = some (.s "error") ∨
    statusOf dc = some (.s "info")

/-- A world in which every upstream fetch raises. -/
def errWorld : World :=
  ⟨.error "boom", .error "boom", .error "boom", .error "boom", .error "boom"⟩

/-- A balance-sheet row whose current liabilities are present but zero. -/
def zeroLiabBalance : BalanceRow :=
  ⟨none, none, none, none, some 500, some 0, some 100, none, none⟩

/-- A balance-sheet row whose current liabilities are absent. -/
def noneLiabBalance : BalanceRow :=
  ⟨none, none, none, none, some 500, none, some 100, none, none⟩

/-- An income-statement row with every line item absent. -/
def emptyIncome : IncomeRow := ⟨none, none, none, none, none, none, none, none⟩

/-- The concrete closes of the specification example: latest 110, previous
100, oldest 90. -/
def rowA : PriceRow := ⟨110, 112, 108, 1200⟩

def rowB : PriceRow := ⟨100, 101, 99, 1000⟩

def rowC : PriceRow := ⟨90, 95, 85, 800⟩

/-- The per-ticker entry assembled by compare_stocks. -/
def stockEntry (t : String) (w : World) : Value :=
  Value.d [("price_data", Value.d (get_stock_price t w.price)),
           ("fundamentals", Value.d (get_stock_fundamentals t w.overview))]

/-- A company-overview row with every field absent. -/
def emptyFund : FundRow :=
  ⟨none, none, none, none, none, none, none, none, none, none, none, none,
   none, none, none, none⟩

/-- A world whose price and overview fetches succeed. -/
def okWorld : World :=
  ⟨.ok [rowA, rowB, rowC], .ok (some emptyFund), .error "x", .error "x",
   .error "x"⟩

theorem ratFloor_eq_floor (x : ℚ) : ratFloor x = ⌊x⌋ := by
  rw [ratFloor, Rat.floor_def', Rat.floor_def]

@[simp] theorem statusOf_errDict (m : String) :
    statusOf (errDict m) = some (Value.s "error") := rfl

@[simp] theorem statusOf_status_head (v : Value) (rest : List (String × Value)) :
    statusOf (("status", v) :: rest) = some v := rfl

theorem statusOk_search (q : String) (a : Bool)
    (b : Except String (List RawHit)) :
    statusOk (search_investment_research q a b).1 := by
  unfold statusOk search_investment_research
  split
  · split
    · exact Or.inr (Or.inl (statusOf_errDict _))
    · dsimp only
      split
      · exact Or.inl (statusOf_status_head _ _)
      · exact Or.inl (statusOf_status_head _ _)
  · exact Or.inr (Or.inr (statusOf_status_head _ _))

theorem statusOk_price (t : String) (f : Except String (List PriceRow)) :
    statusOk (get_stock_price t f) := by
  unfold statusOk get_stock_price
  split
  · exact Or.inr (Or.inl (statusOf_errDict _))
  · split
    · exact Or.inr (Or.inl (statusOf_errDict _))
    · exact Or.inr (Or.inl (statusOf_errDict _))
    · dsimp only
      split
      · exact Or.inr (Or.inl (statusOf_errDict _))
      · split
        · exact Or.inr (Or.inl (statusOf_errDict _))
        · exact Or.inl (statusOf_status_head _ _)

theorem statusOk_fundamentals (t : String)
    (f : Except String (Option FundRow)) :
    statusOk (get_stock_fundamentals t f) := by
  unfold statusOk get_stock_fundamentals
  split
  · exact Or.inr (Or.inl (statusOf_errDict _))
  · exact Or.inr (Or.inl (statusOf_errDict _))
  · exact Or.inl (statusOf_status_head _ _)

theorem statusOk_income (t : String) (f : Except String (Option IncomeRow)) :
    statusOk (get_income_statement t f) := by
  unfold statusOk get_income_statement
  split
  · exact Or.inr (Or.inl (statusOf_errDict _))
  · exact Or.inr (Or.inl (statusOf_errDict _))
  · exact Or.inl (statusOf_status_head _ _)

theorem statusOk_balance (t : String) (f : Except String (Option BalanceRow)) :
    statusOk (get_balance_sheet t f) := by
  unfold statusOk get_balance_sheet
  split
  · exact Or.inr (Or.inl (statusOf_errDict _))
  · exact Or.inr (Or.inl (statusOf_errDict _))
  · exact Or.inl (statusOf_status_head _ _)

theorem statusOk_cashflow (t : String) (f : Except String (Option CashRow)) :
    statusOk (get_cash_flow t f) := by
  unfold statusOk get_cash_flow
  split
  · exact Or.inr (Or.inl (statusOf_errDict _))
  · exact Or.inr (Or.inl (statusOf_errDict _))
  · exact Or.inl (statusOf_status_head _ _)

theorem statusOk_valuation (t : String) (pf : Except String (List PriceRow))
    (ff : Except String (Option FundRow)) :
    statusOk (calculate_valuation_metrics t pf ff) := by
  unfold statusOk calculate_valuation_metrics
  dsimp only
  split
  · exact Or.inr (Or.inl (statusOf_errDict _))
  · exact Or.inl (statusOf_status_head _ _)

theorem statusOk_ratios (t : String) (bf : Except String (Option BalanceRow))
    (incf : Except String (Option IncomeRow)) :
    statusOk (calculate_financial_ratios t bf incf) := by
  unfold statusOk calculate_financial_ratios
  dsimp only
  split
  · exact Or.inr (Or.inl (statusOf_errDict _))
  · exact Or.inl (statusOf_status_head _ _)

theorem statusOk_growth (t : String) (pf : Except String (List PriceRow))
    (ff : Except String (Option FundRow)) :
    statusOk (analyze_growth_trends t pf ff) := by
  unfold statusOk analyze_growth_trends
  dsimp only
  split
  · exact Or.inr (Or.inl (statusOf_errDict _))
  · exact Or.inl (statusOf_status_head _ _)

theorem statusOk_compare (t1 t2 : String) (w1 w2 : World) :
    statusOk (compare_stocks t1 t2 w1 w2) :=
  Or.inl (statusOf_status_head _ _)

theorem statusOk_stock_overview (t : String) (w : World) :
    statusOk (get_stock_info t w) :=
  Or.inl (statusOf_status_head _ _)

theorem statusOk_report (t : String) (w : World) :
    statusOk (generate_investment_report t w) :=
  Or.inl (statusOf_status_head _ _)

theorem statusOk_checklist (t : String) (w : World) :
    statusOk (investment_checklist_screen t w) := by
  unfold statusOk investment_checklist_screen
  dsimp only
  split
  · exact Or.inr (Or.inl (statusOf_errDict _))
  · exact Or.inl (statusOf_status_head _ _)

/-- C1: every public tool operation (all thirteen) returns exactly one
response-envelope dictionary whose status field is one of success, error, or
info, on every input — no branch lets a failure escape without producing such
an envelope. -/
theorem tool_envelope_status_total :
    (∀ q a b, statusOk (search_investment_research q a b).1) ∧
    (∀ t f, statusOk (get_stock_price t f)) ∧
    (∀ t f, statusOk (get_stock_fundamentals t f)) ∧
    (∀ t f, statusOk (get_income_statement t f)) ∧
    (∀ t f, statusOk (get_balance_sheet t f)) ∧
    (∀ t f, statusOk (get_cash_flow t f)) ∧
    (∀ t pf ff, statusOk (calculate_valuation_metrics t pf ff)) ∧
    (∀ t bf incf, statusOk (calculate_financial_ratios t bf incf)) ∧
    (∀ t pf ff, statusOk (analyze_growth_trends t pf ff)) ∧
    (∀ t1 t2 w1 w2, statusOk (compare_stocks t1 t2 w1 w2)) ∧
    (∀ t w, statusOk (get_stock_info t w)) ∧
    (∀ t w, statusOk (generate_investment_report t w)) ∧
    (∀ t w, statusOk (investment_checklist_screen t w)) :=
  ⟨statusOk_search, statusOk_price, statusOk_fundamentals, statusOk_income,
   statusOk_balance, statusOk_cashflow, statusOk_valuation, statusOk_ratios,
   statusOk_growth, statusOk_compare, statusOk_stock_overview,
   statusOk_report, statusOk_checklist⟩

/-- C9: in every success envelope produced by get_cash_flow, the
free_cash_flow field carries the same value as operating_cash_flow — both are
populated from the upstream operating-cash-flow line item, and capital
expenditures are never subtracted; on non-success envelopes neither field is
present, so the two lookups agree on every input. -/
theorem free_cash_flow_equals_operating :
    (∀ (t : String) (row : CashRow),
      List.lookup "free_cash_flow" (get_cash_flow t (.ok (some row))) =
        some (fval row.operatingCashflow) ∧
      List.lookup "operating_cash_flow" (get_cash_flow t (.ok (some row))) =
        some (fval row.operatingCashflow)) ∧
    (∀ (t : String) (f : Except String (Option CashRow)),
      List.lookup "free_cash_flow" (get_cash_flow t f) =
        List.lookup "operating_cash_flow" (get_cash_flow t f)) := by
  refine ⟨fun t row => ⟨rfl, rfl⟩, fun t f => ?_⟩
  rcases f with e | _ | row <;> rfl

/-- C10: compare_stocks and get_stock_info return a top-level success
envelope for every input — including worlds where every nested price or
fundamentals fetch produced an error envelope — so the top-level status never
reflects the embedded statuses. -/
theorem nested_errors_top_success :
    (∀ t1 t2 w1 w2,
      statusOf (compare_stocks t1 t2 w1 w2) = some (Value.s "success")) ∧
    (∀ t w, statusOf (get_stock_info t w) = some (Value.s "success")) :=
  ⟨fun _ _ _ _ => rfl, fun _ _ => rfl⟩

/-- C8: when the backend availability flag is false,
search_investment_research returns the info envelope immediately with zero
backend interactions, for every query and every would-be backend outcome; and
the info status is distinct from the error status. -/
theorem search_unavailable_info_no_call :
    ∀ (q : String) (b : Except String (List RawHit)),
      (search_investment_research q false b).2 = 0 ∧
      statusOf (search_investment_research q false b).1 = some (Value.s "info") ∧
      Value.s "info" ≠ Value.s "error" :=
  fun q b => ⟨rfl, rfl, by simp⟩

@[simp] theorem statusIsError_errDict (m : String) :
    statusIsError (errDict m) = true := rfl

@[simp] theorem statusIsError_status_head (st : String)
    (rest : List (String × Value)) :
    statusIsError (("status", Value.s st) :: rest) = (st == "error") := rfl

/-- C3 counterexample: in a world where the fundamentals fetch errors, the
fundamentals section is an error envelope, yet generate_investment_report
still returns a top-level success envelope — so it is not the case that a
fundamentals error makes the whole aggregate return a top-level error. -/
theorem report_no_abort_counterexample :
    statusOf (get_stock_fundamentals "AAPL" errWorld.overview) =
      some (Value.s "error") ∧
    statusOf (generate_investment_report "AAPL" errWorld) =
      some (Value.s "success") :=
  ⟨rfl, rfl⟩

/-- C3 amended: generate_investment_report never aborts — it returns a
success envelope for every world, embedding each constituent section envelope
(errored or not) under the sections key; investment_checklist_screen aborts
with a top-level error envelope exactly when the fundamentals envelope is an
error; and in the checklist, non-blocking section errors are not embedded as
envelopes but surface as the N/A string in the affected fields — on any world
whose fundamentals fetch succeeds while the income, balance and cash-flow
fetches all error, the checklist is the success dictionary whose ratio- and
cash-flow-derived fields are all the string N/A. -/
theorem aggregate_abort_policy_amended :
    (∀ t w,
      statusOf (generate_investment_report t w) = some (Value.s "success") ∧
      List.lookup "sections" (generate_investment_report t w) =
        some (Value.d
          [("price_performance", Value.d (get_stock_price t w.price)),
           ("company_overview", Value.d (get_stock_fundamentals t w.overview)),
           ("income_statement", Value.d (get_income_statement t w.income)),
           ("balance_sheet", Value.d (get_balance_sheet t w.balance)),
           ("cash_flow", Value.d (get_cash_flow t w.cashflow)),
           ("valuation_analysis",
             Value.d (calculate_valuation_metrics t w.price w.overview))])) ∧
    (∀ t w,
      statusOf (investment_checklist_screen t w) = some (Value.s "error") ↔
      statusOf (get_stock_fundamentals t w.overview) = some (Value.s "error")) ∧
    (∀ (t : String) (pf : Except String (List PriceRow)) (row : FundRow)
       (e1 e2 e3 : String),
      investment_checklist_screen t
          ⟨pf, .ok (some row), .error e1, .error e2, .error e3⟩ =
        [("status", Value.s "success"),
         ("ticker", Value.s (pyUpper t)),
         ("company_name", sval row.name),
         ("business_quality", Value.d
           [("net_profit_margin", Value.s "N/A"),
            ("gross_profit_margin", Value.s "N/A"),
            ("operating_margin", Value.s "N/A"),
            ("market_cap", sval row.marketCapitalization),
            ("sector", sval row.sector),
            ("industry", sval row.industry)]),
         ("financial_health", Value.d
           [("debt_to_equity", Value.s "N/A"),
            ("debt_to_assets", Value.s "N/A"),
            ("equity_multiplier", Value.s "N/A"),
            ("current_ratio", Value.s "N/A"),
            ("quick_ratio", Value.s "N/A"),
            ("cash_ratio", Value.s "N/A"),
            ("operating_cash_flow", Value.s "N/A"),
            ("free_cash_flow", Value.s "N/A"),
            ("capital_expenditures", Value.s "N/A")]),
         ("valuation_metrics", Value.d
           [("peg_ratio", sval row.pegRatio),
            ("pe_ratio", sval row.peRatio),
            ("forward_pe", sval row.forwardPE),
            ("price_to_book", sval row.priceToBookRatio),
            ("analyst_target", sval row.analystTargetPrice),
            ("52_week_high", sval row.week52High),
            ("52_week_low", sval row.week52Low)]),
         ("risk_indicators", Value.d
           [("beta", sval row.beta),
            ("dividend_yield", sval row.dividendYield),
            ("revenue_growth_yoy", sval row.quarterlyRevenueGrowthYOY),
            ("earnings_per_share", sval row.eps)])]) := by
  refine ⟨fun t w => ⟨rfl, rfl⟩, fun t w => ?_, fun t pf row e1 e2 e3 => rfl⟩
  cases hov : w.overview with
  | error e =>
      simp [investment_checklist_screen, get_stock_fundamentals, hov]
  | ok o =>
      cases o with
      | none => simp [investment_checklist_screen, get_stock_fundamentals, hov]
      | some row => simp [investment_checklist_screen, get_stock_fundamentals, hov]

/-- C2 counterexample: with a successfully fetched balance sheet whose
current liabilities value is present but zero (current assets 500, cash 100),
calculate_financial_ratios returns liquidity_ratios as the empty dictionary,
not the single-note dictionary the claim requires. -/
theorem liquidity_zero_liabilities_counterexample :
    List.lookup "liquidity_ratios"
      (calculate_financial_ratios "AAPL" (.ok (some zeroLiabBalance))
        (.ok (some emptyIncome))) = some (Value.d []) ∧
    Value.d [] ≠ Value.d [("note", Value.s "Insufficient data for calculation")] :=
  ⟨rfl, by simp⟩

/-- C2 amended: assuming the balance-sheet and income-statement fetches both
succeed, an absent current-liabilities value collapses liquidity_ratios to
exactly the single-note dictionary; a present-but-zero current-liabilities
value (with current assets and cash present) instead leaves liquidity_ratios
as the empty dictionary — no numeric keys in either case, but the note
appears only on the absent branch. -/
theorem liquidity_insufficient_data_amended (t : String) (br : BalanceRow)
    (ir : IncomeRow) :
    (br.totalCurrentLiabilities = none →
      List.lookup "liquidity_ratios"
        (calculate_financial_ratios t (.ok (some br)) (.ok (some ir))) =
        some (Value.d [("note", Value.s "Insufficient data for calculation")])) ∧
    (∀ a c : ℚ, br.totalCurrentAssets = some a →
      br.totalCurrentLiabilities = some 0 →
      br.cashAndCashEquivalentsAtCarryingValue = some c →
      List.lookup "liquidity_ratios"
        (calculate_financial_ratios t (.ok (some br)) (.ok (some ir))) =
        some (Value.d [])) := by
  obtain ⟨fd, ta, tl, tse, ca, cl, cash, ltd, std⟩ := br
  constructor
  · intro h
    dsimp only at h
    subst h
    cases ca with
    | none => rfl
    | some a => rfl
  · intro a c ha hl hc
    dsimp only at ha hl hc
    subst ha; subst hl; subst hc
    rfl

/-- C2 witness: the amended claim evaluated on concrete rows — liabilities
zero yields the empty group, liabilities absent yields the note group. -/
theorem liquidity_insufficient_data_amended_witness :
    (zeroLiabBalance.totalCurrentAssets = some 500 ∧
     zeroLiabBalance.totalCurrentLiabilities = some 0 ∧
     zeroLiabBalance.cashAndCashEquivalentsAtCarryingValue = some 100 ∧
     noneLiabBalance.totalCurrentLiabilities = none) ∧
    List.lookup "liquidity_ratios"
      (calculate_financial_ratios "AAPL" (.ok (some zeroLiabBalance))
        (.ok (some emptyIncome))) = some (Value.d []) ∧
    List.lookup "liquidity_ratios"
      (calculate_financial_ratios "AAPL" (.ok (some noneLiabBalance))
        (.ok (some emptyIncome))) =
      some (Value.d [("note", Value.s "Insufficient data for calculation")]) :=
  ⟨⟨rfl, rfl, rfl, rfl⟩,
   (liquidity_insufficient_data_amended "AAPL" zeroLiabBalance emptyIncome).2
     500 100 rfl rfl rfl,
   (liquidity_insufficient_data_amended "AAPL" noneLiabBalance emptyIncome).1 rfl⟩

/-- C6: when the balance-sheet fetch succeeds with current assets, current
liabilities and cash all present and current liabilities strictly positive
(and the income-statement fetch also succeeds, so the calculation is
reached), liquidity_ratios holds exactly current ratio, quick ratio and cash
ratio computed by the documented formulas, each rounded to two decimals. -/
theorem liquidity_ratio_formulas (t : String) (br : BalanceRow)
    (ir : IncomeRow) (a l c : ℚ) (ha : br.totalCurrentAssets = some a)
    (hl : br.totalCurrentLiabilities = some l)
    (hc : br.cashAndCashEquivalentsAtCarryingValue = some c) (hpos : 0 < l) :
    List.lookup "liquidity_ratios"
      (calculate_financial_ratios t (.ok (some br)) (.ok (some ir))) =
      some (Value.d
        [("current_ratio", Value.q (round2 (a / l))),
         ("quick_ratio", Value.q (round2 ((a - c) / l))),
         ("cash_ratio", Value.q (round2 (c / l)))]) := by
  obtain ⟨fd, ta, tl, tse, ca, cl, cash, ltd, std⟩ := br
  dsimp only at ha hl hc
  subst ha; subst hl; subst hc
  show some (Value.d (liqGroup (get_balance_sheet t (.ok (some
    ⟨fd, ta, tl, tse, some a, some l, some c, ltd, std⟩))))) = _
  show some (Value.d (if l > 0 then _ else [])) = _
  rw [if_pos hpos]

/-- C6 witness: current assets 500, current liabilities 250, cash 100 give
current_ratio 2.0, quick_ratio 1.6 and cash_ratio 0.4. -/
theorem liquidity_ratio_formulas_witness :
    ((0 : ℚ) < 250) ∧
    List.lookup "liquidity_ratios"
      (calculate_financial_ratios "AAPL"
        (.ok (some ⟨none, none, none, none, some 500, some 250, some 100, none, none⟩))
        (.ok (some emptyIncome))) =
      some (Value.d
        [("current_ratio", Value.q 2),
         ("quick_ratio", Value.q (16/10)),
         ("cash_ratio", Value.q (4/10))]) := by
  refine ⟨by norm_num, ?_⟩
  have h := liquidity_ratio_formulas "AAPL"
    ⟨none, none, none, none, some 500, some 250, some 100, none, none⟩
    emptyIncome 500 250 100 rfl rfl rfl (by norm_num)
  rw [h]
  simp only [round2, roundHalfEven, ratFloor_eq_floor]
  norm_num

/-- Evaluation rule for round2 when the scaled value has floor n and a
fractional part below one half. -/
theorem round2_eq_of_bounds (x : ℚ) (n : Int) (h1 : (n : ℚ) ≤ x * 100)
    (h2 : x * 100 < n + 1) (h3 : x * 100 - (n : ℚ) < 1/2) :
    round2 x = (n : ℚ) / 100 := by
  have hf : ⌊x * 100⌋ = n := by
    rw [Int.floor_eq_iff]
    exact ⟨h1, h2⟩
  simp only [round2, roundHalfEven, ratFloor_eq_floor, hf]
  rw [if_pos h3]

/-- C5 counterexample: a fetched price series that is non-empty but has a
single row makes get_stock_price return an error envelope (the iloc access to
the previous close raises), with no change_1day field at all — so the claim
does not hold for every non-empty fetched series. -/
theorem price_single_row_counterexample :
    List.lookup "change_1day"
      (get_stock_price "AAPL" (.ok [⟨5, 5, 5, 5⟩])) = none ∧
    statusOf (get_stock_price "AAPL" (.ok [⟨5, 5, 5, 5⟩])) =
      some (Value.s "error") ∧
    (Except.ok [(⟨5, 5, 5, 5⟩ : PriceRow)] :
      Except String (List PriceRow)) ≠ .ok [] :=
  ⟨rfl, rfl, by simp⟩

/-- C5 amended: for every fetched price series with at least two rows whose
previous close and oldest close are nonzero, get_stock_price returns
change_1day, change_1day_percent, change_1month and change_1month_percent
computed by the documented formulas against the previous and oldest closes,
each rounded to two decimals. -/
theorem price_change_fields_amended (t : String) (r0 r1 : PriceRow)
    (rest : List PriceRow) (hp : r1.close ≠ 0)
    (ho : oldestClose r0 r1 rest ≠ 0) :
    List.lookup "change_1day" (get_stock_price t (.ok (r0 :: r1 :: rest))) =
      some (Value.q (round2 (r0.close - r1.close))) ∧
    List.lookup "change_1day_percent"
        (get_stock_price t (.ok (r0 :: r1 :: rest))) =
      some (Value.q (round2 ((r0.close - r1.close) / r1.close * 100))) ∧
    List.lookup "change_1month" (get_stock_price t (.ok (r0 :: r1 :: rest))) =
      some (Value.q (round2 (r0.close - oldestClose r0 r1 rest))) ∧
    List.lookup "change_1month_percent"
        (get_stock_price t (.ok (r0 :: r1 :: rest))) =
      some (Value.q (round2 ((r0.close - oldestClose r0 r1 rest) /
        oldestClose r0 r1 rest * 100))) := by
  simp only [get_stock_price]
  rw [if_neg hp, if_neg ho]
  exact ⟨rfl, rfl, rfl, rfl⟩

/-- C5 witness: on closes latest 110, previous 100, oldest 90 the operation
returns change_1day 10, change_1day_percent 10, change_1month 20 and
change_1month_percent 22.22. -/
theorem price_change_fields_amended_witness :
    (rowB.close ≠ 0 ∧ oldestClose rowA rowB [rowC] ≠ 0) ∧
    List.lookup "change_1day"
      (get_stock_price "AAPL" (.ok [rowA, rowB, rowC])) =
      some (Value.q 10) ∧
    List.lookup "change_1day_percent"
      (get_stock_price "AAPL" (.ok [rowA, rowB, rowC])) =
      some (Value.q 10) ∧
    List.lookup "change_1month"
      (get_stock_price "AAPL" (.ok [rowA, rowB, rowC])) =
      some (Value.q 20) ∧
    List.lookup "change_1month_percent"
      (get_stock_price "AAPL" (.ok [rowA, rowB, rowC])) =
      some (Value.q (2222/100)) := by
  have hp : rowB.close ≠ 0 := by norm_num [rowB]
  have hold : oldestClose rowA rowB [rowC] = 90 := rfl
  have ho : oldestClose rowA rowB [rowC] ≠ 0 := by rw [hold]; norm_num
  obtain ⟨h1, h2, h3, h4⟩ :=
    price_change_fields_amended "AAPL" rowA rowB [rowC] hp ho
  refine ⟨⟨hp, ho⟩, ?_, ?_, ?_, ?_⟩
  · rw [h1]
    dsimp only [rowA, rowB]
    have e1 : round2 ((110 : ℚ) - 100) = ((1000 : ℤ) : ℚ) / 100 :=
      round2_eq_of_bounds _ 1000 (by norm_num) (by norm_num) (by norm_num)
    rw [e1]
    norm_num
  · rw [h2]
    dsimp only [rowA, rowB]
    have e2 : round2 (((110 : ℚ) - 100) / 100 * 100) = ((1000 : ℤ) : ℚ) / 100 :=
      round2_eq_of_bounds _ 1000 (by norm_num) (by norm_num) (by norm_num)
    rw [e2]
    norm_num
  · rw [h3, hold]
    dsimp only [rowA]
    have e3 : round2 ((110 : ℚ) - 90) = ((2000 : ℤ) : ℚ) / 100 :=
      round2_eq_of_bounds _ 2000 (by norm_num) (by norm_num) (by norm_num)
    rw [e3]
    norm_num
  · rw [h4, hold]
    dsimp only [rowA]
    have e4 : round2 (((110 : ℚ) - 90) / 90 * 100) = ((2222 : ℤ) : ℚ) / 100 :=
      round2_eq_of_bounds _ 2222 (by norm_num) (by norm_num) (by norm_num)
    rw [e4]
    norm_num

/-- C7: for tickers with distinct uppercased forms, compare_stocks returns a
comparison object keyed exactly by the two uppercased inputs, and each key
resolves to that ticker's own price and fundamentals envelopes, built only
from that ticker's upstream responses — so an error envelope on one side
never displaces the other side's data. -/
theorem compare_keys_independent (t1 t2 : String) (w1 w2 : World)
    (hne : pyUpper t1 ≠ pyUpper t2) :
    compare_stocks t1 t2 w1 w2 =
      [("status", Value.s "success"),
       ("comparison", Value.d
         [(pyUpper t1, stockEntry t1 w1), (pyUpper t2, stockEntry t2 w2)])] ∧
    List.lookup (pyUpper t1)
      [(pyUpper t1, stockEntry t1 w1), (pyUpper t2, stockEntry t2 w2)] =
      some (stockEntry t1 w1) ∧
    List.lookup (pyUpper t2)
      [(pyUpper t1, stockEntry t1 w1), (pyUpper t2, stockEntry t2 w2)] =
      some (stockEntry t2 w2) := by
  refine ⟨rfl, ?_, ?_⟩
  · simp [List.lookup]
  · have hb : (pyUpper t2 == pyUpper t1) = false :=
      beq_eq_false_iff_ne.mpr (Ne.symm hne)
    simp [List.lookup, hb]

/-- C7 witness: comparing aapl (lower case) with MSFT in a world where every
fetch errors still yields the two-keyed comparison, with the MSFT entry
reachable under its own key. -/
theorem compare_keys_independent_witness :
    (pyUpper "aapl" ≠ pyUpper "MSFT") ∧
    compare_stocks "aapl" "MSFT" errWorld errWorld =
      [("status", Value.s "success"),
       ("comparison", Value.d
         [(pyUpper "aapl", stockEntry "aapl" errWorld),
          (pyUpper "MSFT", stockEntry "MSFT" errWorld)])] ∧
    List.lookup (pyUpper "MSFT")
      [(pyUpper "aapl", stockEntry "aapl" errWorld),
       (pyUpper "MSFT", stockEntry "MSFT" errWorld)] =
      some (stockEntry "MSFT" errWorld) := by
  have hne : pyUpper "aapl" ≠ pyUpper "MSFT" := by decide
  obtain ⟨hcmp, hlk1, hlk2⟩ :=
    compare_keys_independent "aapl" "MSFT" errWorld errWorld hne
  exact ⟨hne, hcmp, hlk2⟩

theorem gsf_upper_eq_of_success (t1 t2 : String)
    (f : Except String (Option FundRow)) (hu : pyUpper t1 = pyUpper t2)
    (hs : statusOf (get_stock_fundamentals t1 f) = some (Value.s "success")) :
    get_stock_fundamentals t1 f = get_stock_fundamentals t2 f := by
  rcases f with e | _ | row
  · exact absurd hs (by simp [get_stock_fundamentals])
  · exact absurd hs (by simp [get_stock_fundamentals])
  · simp [get_stock_fundamentals, hu]

theorem gsp_upper_eq_of_success (t1 t2 : String)
    (f : Except String (List PriceRow)) (hu : pyUpper t1 = pyUpper t2)
    (hs : statusOf (get_stock_price t1 f) = some (Value.s "success")) :
    get_stock_price t1 f = get_stock_price t2 f := by
  rcases f with e | rows
  · exact absurd hs (by simp [get_stock_price])
  · rcases rows with _ | ⟨r0, _ | ⟨r1, rest⟩⟩
    · exact absurd hs (by simp [get_stock_price])
    · exact absurd hs (by simp [get_stock_price])
    · by_cases hp : r1.close = 0
      · exact absurd hs (by simp [get_stock_price, hp])
      · by_cases ho : oldestClose r0 r1 rest = 0
        · exact absurd hs (by simp [get_stock_price, hp, ho])
        · simp [get_stock_price, hp, ho, hu]

theorem gsp_ticker_of_success (t : String) (f : Except String (List PriceRow))
    (hs : statusOf (get_stock_price t f) = some (Value.s "success")) :
    List.lookup "ticker" (get_stock_price t f) = some (Value.s (pyUpper t)) := by
  rcases f with e | rows
  · exact absurd hs (by simp [get_stock_price])
  · rcases rows with _ | ⟨r0, _ | ⟨r1, rest⟩⟩
    · exact absurd hs (by simp [get_stock_price])
    · exact absurd hs (by simp [get_stock_price])
    · by_cases hp : r1.close = 0
      · exact absurd hs (by simp [get_stock_price, hp])
      · by_cases ho : oldestClose r0 r1 rest = 0
        · exact absurd hs (by simp [get_stock_price, hp, ho])
        · simp [get_stock_price, hp, ho, List.lookup]

/-- C4 counterexample: on the error path the message embeds the identifier in
its original casing, so case variants of the same ticker produce envelopes
that differ beyond identifier uppercasing (the message is not an identifier
field), although the uppercased forms of the two inputs coincide. -/
theorem case_error_message_counterexample :
    List.lookup "message" (get_stock_price "aapl" (.ok [])) =
      some (Value.s "No price data found for aapl. Please verify the ticker symbol.") ∧
    List.lookup "message" (get_stock_price "AAPL" (.ok [])) =
      some (Value.s "No price data found for AAPL. Please verify the ticker symbol.") ∧
    Value.s "No price data found for aapl. Please verify the ticker symbol." ≠
      Value.s "No price data found for AAPL. Please verify the ticker symbol." ∧
    pyUpper "aapl" = pyUpper "AAPL" :=
  ⟨rfl, rfl, by simp, rfl⟩

/-- C4 amended: restricted to success paths the claim holds — for the cited
operations, two inputs with the same uppercased form produce identical
output, with the ticker field carrying the uppercased identifier; for
compare_stocks this needs every embedded envelope to be on its success path,
since embedded error envelopes carry raw-cased messages. -/
theorem case_insensitive_success_amended :
    (∀ t1 t2 f, pyUpper t1 = pyUpper t2 →
      statusOf (get_stock_price t1 f) = some (Value.s "success") →
      get_stock_price t1 f = get_stock_price t2 f ∧
      List.lookup "ticker" (get_stock_price t1 f) =
        some (Value.s (pyUpper t1))) ∧
    (∀ t1 t2 s1 s2 w1 w2, pyUpper t1 = pyUpper s1 → pyUpper t2 = pyUpper s2 →
      statusOf (get_stock_price t1 w1.price) = some (Value.s "success") →
      statusOf (get_stock_fundamentals t1 w1.overview) =
        some (Value.s "success") →
      statusOf (get_stock_price t2 w2.price) = some (Value.s "success") →
      statusOf (get_stock_fundamentals t2 w2.overview) =
        some (Value.s "success") →
      compare_stocks t1 t2 w1 w2 = compare_stocks s1 s2 w1 w2) := by
  constructor
  · intro t1 t2 f hu hs
    exact ⟨gsp_upper_eq_of_success t1 t2 f hu hs, gsp_ticker_of_success t1 f hs⟩
  · intro t1 t2 s1 s2 w1 w2 hu1 hu2 hsp1 hsf1 hsp2 hsf2
    simp only [compare_stocks,
      gsp_upper_eq_of_success t1 s1 w1.price hu1 hsp1,
      gsf_upper_eq_of_success t1 s1 w1.overview hu1 hsf1,
      gsp_upper_eq_of_success t2 s2 w2.price hu2 hsp2,
      gsf_upper_eq_of_success t2 s2 w2.overview hu2 hsf2, hu1, hu2]

/-- C4 witness: the amended claim applied at concrete case-variant tickers
over a world with successful price and overview fetches. -/
theorem case_insensitive_success_amended_witness :
    (pyUpper "aapl" = pyUpper "AAPL" ∧ pyUpper "msft" = pyUpper "MSFT" ∧
     statusOf (get_stock_price "aapl" okWorld.price) =
       some (Value.s "success") ∧
     statusOf (get_stock_fundamentals "aapl" okWorld.overview) =
       some (Value.s "success") ∧
     statusOf (get_stock_price "msft" okWorld.price) =
       some (Value.s "success") ∧
     statusOf (get_stock_fundamentals "msft" okWorld.overview) =
       some (Value.s "success")) ∧
    (get_stock_price "aapl" okWorld.price =
       get_stock_price "AAPL" okWorld.price ∧
     List.lookup "ticker" (get_stock_price "aapl" okWorld.price) =
       some (Value.s (pyUpper "aapl"))) ∧
    compare_stocks "aapl" "msft" okWorld okWorld =
      compare_stocks "AAPL" "MSFT" okWorld okWorld := by
  have hu1 : pyUpper "aapl" = pyUpper "AAPL" := rfl
  have hu2 : pyUpper "msft" = pyUpper "MSFT" := rfl
  have hsp1 : statusOf (get_stock_price "aapl" okWorld.price) =
      some (Value.s "success") := rfl
  have hsf1 : statusOf (get_stock_fundamentals "aapl" okWorld.overview) =
      some (Value.s "success") := rfl
  have hsp2 : statusOf (get_stock_price "msft" okWorld.price) =
      some (Value.s "success") := rfl
  have hsf2 : statusOf (get_stock_fundamentals "msft" okWorld.overview) =
      some (Value.s "success") := rfl
  exact ⟨⟨hu1, hu2, hsp1, hsf1, hsp2, hsf2⟩,
    case_insensitive_success_amended.1 "aapl" "AAPL" okWorld.price hu1 hsp1,
    case_insensitive_success_amended.2 "aapl" "msft" "AAPL" "MSFT"
      okWorld okWorld hu1 hu2 hsp1 hsf1 hsp2 hsf2⟩
